import Mathlib

/-!
Shallow embedding of `megatron/model/module.py` (Megatron-LM v2.3):
the float16/bfloat16 boundary-conversion wrapper (`Float16Module`,
`conversion_helper`, `fp32_to_float16`, `float16_to_fp32`) and the
pipeline-aware shared-embedding logic of `MegatronModule`
(`word_embeddings_weight`, `initialize_word_embeddings`).

Modelling conventions:
- A tensor is its dtype together with its (flattened) numeric contents,
  modelled as a list of rationals.  The framework-owned rounding performed
  by `.half()` / `.bfloat16()` is abstracted as an explicit elementwise
  rounding function; `.float()` on a half/bfloat16 tensor is value-exact
  (every fp16/bf16 value is exactly representable in fp32), so it only
  changes the dtype.
- A Python value passed through `conversion_helper` is a finitely nested
  tree of lists and tuples whose leaves are either tensors (possibly
  wrapped as `Parameter`/`Variable`, recorded by a Boolean flag) or
  arbitrary non-tensor objects (opaque, identified by a natural number).
- `isinstance(x, _FLOAT_TYPES)` holds exactly of fp32 tensors,
  `isinstance(x, (_BF16_TYPES, _HALF_TYPES))` exactly of bf16/fp16 tensors.
- Raising an exception is modelled by `Except.error` carrying the message;
  the `print`ed warning of `initialize_word_embeddings` is counted in an
  effect record, together with whether the second embedding was allocated
  and whether the collective all-reduce was issued.
- The pipeline queries `mpu.is_pipeline_first_stage` /
  `mpu.is_pipeline_last_stage` are modelled as two Booleans (the
  `ignore_virtual` distinction is not modelled: both variants answer the
  same in this single-worker model).
-/

namespace Megatron

/-- Tensor dtypes distinguished by the module: the `_FLOAT_TYPES` check
matches exactly `fp32`, the `_HALF_TYPES`/`_BF16_TYPES` checks match
`fp16`/`bf16`; `fp64`, `int64` and `boolT` are examples of tensor dtypes
matched by none of the three type tuples. -/
inductive Dtype : Type where
  | fp32 : Dtype
  | fp16 : Dtype
  | bf16 : Dtype
  | fp64 : Dtype
  | int64 : Dtype
  | boolT : Dtype
deriving DecidableEq, Repr

/-- A tensor: its dtype and its flattened numeric contents. -/
structure Tensor : Type where
  dtype : Dtype
  data : List ℚ
deriving DecidableEq, Repr

/-- A leaf of a nested value tree: a tensor — the Boolean records whether it
is wrapped as a `Parameter`/`Variable` (whose `.data` is the tensor) — or a
non-tensor Python object (opaque). -/
inductive Leaf : Type where
  | tensor : Bool → Tensor → Leaf
  | pyobj : Nat → Leaf
deriving DecidableEq, Repr

mutual
/-- A nested Python value: a leaf, a list of values, or a tuple of values. -/
inductive PyTree : Type where
  | leaf : Leaf → PyTree
  | list : PyForest → PyTree
  | tuple : PyForest → PyTree
deriving DecidableEq, Repr
/-- The children of a list/tuple node. -/
inductive PyForest : Type where
  | nil : PyForest
  | cons : PyTree → PyForest → PyForest
deriving DecidableEq, Repr
end

mutual
/-- Embeds `conversion_helper(val, conversion)`: apply `conversion` to
`val`, recursing through nested tuple/list structure and rebuilding a list
as a list and a tuple as a tuple. -/
def conversion_helper : PyTree → (Leaf → Leaf) → PyTree
  | .leaf l, conversion => .leaf (conversion l)
  | .list xs, conversion => .list (conversion_forest xs conversion)
  | .tuple xs, conversion => .tuple (conversion_forest xs conversion)
/-- The list comprehension `[conversion_helper(v, conversion) for v in val]`. -/
def conversion_forest : PyForest → (Leaf → Leaf) → PyForest
  | .nil, _ => .nil
  | .cons t ts, conversion => .cons (conversion_helper t conversion) (conversion_forest ts conversion)
end

/-- The framework's `tensor.float()` on a fp16/bf16 tensor: dtype becomes
fp32, values are unchanged (exact promotion). -/
def Tensor.float (t : Tensor) : Tensor := ⟨Dtype.fp32, t.data⟩

/-- The framework's `tensor.half()`: dtype becomes fp16 and each element is
rounded by the (abstract) fp16 rounding `round16`. -/
def Tensor.half (round16 : ℚ → ℚ) (t : Tensor) : Tensor :=
  ⟨Dtype.fp16, t.data.map round16⟩

/-- The framework's `tensor.bfloat16()`: dtype becomes bf16 and each element
is rounded by the (abstract) bf16 rounding `roundBf`. -/
def Tensor.bfloat16 (roundBf : ℚ → ℚ) (t : Tensor) : Tensor :=
  ⟨Dtype.bf16, t.data.map roundBf⟩

/-- The inner `half_conversion` of `fp32_to_float16`: unwrap a
`Parameter`/`Variable` to typecheck its `.data`; if the underlying tensor
is an fp32 tensor (`_FLOAT_TYPES`), apply `float16_convertor`, else return
the value unchanged.  The convertor acts on the underlying tensor; the
wrapper flag is carried along. -/
def half_conversion (float16_convertor : Tensor → Tensor) : Leaf → Leaf
  | .tensor wrapped t =>
      if t.dtype = Dtype.fp32 then .tensor wrapped (float16_convertor t)
      else .tensor wrapped t
  | .pyobj i => .pyobj i

/-- Embeds `fp32_to_float16(val, float16_convertor)`. -/
def fp32_to_float16 (val : PyTree) (float16_convertor : Tensor → Tensor) : PyTree :=
  conversion_helper val (half_conversion float16_convertor)

/-- The inner `float_conversion` of `float16_to_fp32`: unwrap a
`Parameter`/`Variable` to typecheck its `.data`; if the underlying tensor
is a bf16 or fp16 tensor (`(_BF16_TYPES, _HALF_TYPES)`), apply `.float()`,
else return the value unchanged. -/
def float_conversion : Leaf → Leaf
  | .tensor wrapped t =>
      if t.dtype = Dtype.bf16 ∨ t.dtype = Dtype.fp16 then .tensor wrapped (Tensor.float t)
      else .tensor wrapped t
  | .pyobj i => .pyobj i

/-- Embeds `float16_to_fp32(val)`. -/
def float16_to_fp32 (val : PyTree) : PyTree :=
  conversion_helper val float_conversion

mutual
/-- The leaves of a nested value tree, in left-to-right order. -/
def leaves : PyTree → List Leaf
  | .leaf l => [l]
  | .list xs => leavesF xs
  | .tuple xs => leavesF xs
/-- The leaves of a forest, in left-to-right order. -/
def leavesF : PyForest → List Leaf
  | .nil => []
  | .cons t ts => leaves t ++ leavesF ts
end

mutual
/-- The container skeleton of a nested value tree: which container type
(list vs tuple) stands at every level, with what arity, leaves erased. -/
inductive Shape : Type where
  | leaf : Shape
  | list : ShapeList → Shape
  | tuple : ShapeList → Shape
deriving DecidableEq, Repr
/-- The skeletons of the children of a container node. -/
inductive ShapeList : Type where
  | nil : ShapeList
  | cons : Shape → ShapeList → ShapeList
deriving DecidableEq, Repr
end

mutual
/-- The container skeleton of a tree. -/
def shape : PyTree → Shape
  | .leaf _ => Shape.leaf
  | .list xs => Shape.list (shapeF xs)
  | .tuple xs => Shape.tuple (shapeF xs)
/-- The container skeletons of a forest. -/
def shapeF : PyForest → ShapeList
  | .nil => ShapeList.nil
  | .cons t ts => ShapeList.cons (shape t) (shapeF ts)
end

/-- Observation: is this leaf a full-precision tensor, in the sense of the
module's `_FLOAT_TYPES` check applied after unwrapping `Parameter`/`Variable`? -/
def Leaf.is_fp32_tensor : Leaf → Bool
  | .tensor _ t =>
      match t.dtype with
      | Dtype.fp32 => true
      | _ => false
  | .pyobj _ => false

/-- Observation: is this leaf a reduced-precision tensor, in the sense of
the module's `(_BF16_TYPES, _HALF_TYPES)` check applied after unwrapping? -/
def Leaf.is_reduced_tensor : Leaf → Bool
  | .tensor _ t =>
      match t.dtype with
      | Dtype.fp16 => true
      | Dtype.bf16 => true
      | _ => false
  | .pyobj _ => false

/-- Spec-side description of converting a tensor leaf with the selected
convertor (a non-tensor leaf is left alone); used to state what the entry
conversion does to the leaves it selects. -/
def Leaf.apply_convertor (float16_convertor : Tensor → Tensor) : Leaf → Leaf
  | .tensor wrapped t => .tensor wrapped (float16_convertor t)
  | .pyobj i => .pyobj i

/-- Spec-side description of promoting a tensor leaf to full precision with
`.float()` (a non-tensor leaf is left alone); used to state what the exit
conversion does to the leaves it selects. -/
def Leaf.apply_float : Leaf → Leaf
  | .tensor wrapped t => .tensor wrapped (Tensor.float t)
  | .pyobj i => .pyobj i

/-- Every leaf of the tree is a full-precision (fp32) tensor. -/
def AllLeavesFp32 (t : PyTree) : Prop :=
  ∀ l ∈ leaves t, Leaf.is_fp32_tensor l = true

instance instDecidableAllLeavesFp32 (t : PyTree) : Decidable (AllLeavesFp32 t) :=
  List.decidableBAll (fun l => Leaf.is_fp32_tensor l = true) (leaves t)

/-- The round-trip relation between an output leaf and the corresponding
input leaf: both are tensors with the same `Parameter`/`Variable` wrapping,
the output is full precision, and each output element is within `eps` of
the corresponding input element. -/
def LeafApprox (eps : ℚ) : Leaf → Leaf → Prop
  | Leaf.tensor w2 t2, Leaf.tensor w1 t1 =>
      w2 = w1 ∧ t2.dtype = Dtype.fp32 ∧
        List.Forall₂ (fun a b => |a - b| ≤ eps) t2.data t1.data
  | _, _ => False

/-- The fields of the global `args` object read by this module. -/
structure Args : Type where
  fp16 : Bool
  bf16 : Bool
  pipeline_model_parallel_size : Nat
  padded_vocab_size : Nat
  hidden_size : Nat
deriving DecidableEq, Repr

/-- Which reduced-precision convertor `Float16Module.__init__` selected:
`val.half()` under `args.fp16`, `val.bfloat16()` under `args.bf16`. -/
inductive HalfMode : Type where
  | fp16Mode : HalfMode
  | bf16Mode : HalfMode
deriving DecidableEq, Repr

/-- Embeds the control flow of `Float16Module.__init__(module, args)`:
under `args.fp16` the module is converted with `.half()` and the fp16
convertor is selected; otherwise under `args.bf16` the module is converted
with `.bfloat16()` and the bf16 convertor is selected; otherwise the
constructor raises `Exception("should not be here")`.  The result records
which convertor was selected (the conversion of the inner module's own
parameters is delegated to the framework and not modelled). -/
def Float16Module.init (args : Args) : Except String HalfMode :=
  if args.fp16 then Except.ok HalfMode.fp16Mode
  else if args.bf16 then Except.ok HalfMode.bf16Mode
  else Except.error "should not be here"

/-- The `float16_convertor` closure installed by `Float16Module.__init__`
for each selection, with the elementwise roundings abstract. -/
def selected_convertor (round16 roundBf : ℚ → ℚ) : HalfMode → Tensor → Tensor
  | HalfMode.fp16Mode => Tensor.half round16
  | HalfMode.bf16Mode => Tensor.bfloat16 roundBf

/-- The pipeline-position queries `mpu.is_pipeline_first_stage()` /
`mpu.is_pipeline_last_stage()` answered to the calling worker. -/
structure PipelineState : Type where
  is_pipeline_first_stage : Bool
  is_pipeline_last_stage : Bool
deriving DecidableEq, Repr

/-- Embeds `Float16Module.forward(*inputs, **kwargs)`: on the first
pipeline stage the positional-argument tuple is passed through
`fp32_to_float16`; the inner module is called on the (possibly converted)
positional arguments and the keyword arguments; on the last pipeline stage
the outputs are passed through `float16_to_fp32`.  The inner module is an
abstract function of the positional-argument tree and the keyword-argument
association list. -/
def Float16Module.forward (float16_convertor : Tensor → Tensor)
    (module : PyTree → List (String × PyTree) → PyTree)
    (mpu : PipelineState) (inputs : PyTree)
    (kwargs : List (String × PyTree)) : PyTree :=
  let inputs2 := if mpu.is_pipeline_first_stage then fp32_to_float16 inputs float16_convertor
                 else inputs
  let outputs := module inputs2 kwargs
  if mpu.is_pipeline_last_stage then float16_to_fp32 outputs else outputs

/-- A `VocabParallelEmbedding`-style parameter as used here: its weight
tensor and its `shared` tag (read by `param_is_not_shared`). -/
structure EmbeddingParam : Type where
  weight : Tensor
  shared : Bool
deriving DecidableEq, Repr

/-- The `MegatronModule` state touched by the embedding-sharing logic:
the `share_word_embeddings` flag, the first-stage module's native
`self.language_model.embedding.word_embeddings.weight`, and the
`self.word_embeddings` attribute created on the last stage by
`initialize_word_embeddings` (absent before that). -/
structure MegatronModule : Type where
  share_word_embeddings : Bool
  language_model_embedding_weight : Tensor
  word_embeddings : Option EmbeddingParam
deriving DecidableEq, Repr

/-- Embeds `MegatronModule.word_embeddings_weight(self)`: on the first
stage return the native embedding weight; otherwise on the last stage
return `self.word_embeddings.weight` provided `share_word_embeddings` is
set (else raise); on any other stage raise. -/
def word_embeddings_weight (mpu : PipelineState) (self : MegatronModule) :
    Except String Tensor :=
  if mpu.is_pipeline_first_stage then
    Except.ok self.language_model_embedding_weight
  else if mpu.is_pipeline_last_stage then
    if !self.share_word_embeddings then
      Except.error "word_embeddings_weight() called for last stage, but share_word_embeddings is false"
    else
      match self.word_embeddings with
      | some p => Except.ok p.weight
      | none => Except.error "AttributeError: word_embeddings"
  else
    Except.error "word_embeddings_weight() should be called for first and last stage only"

/-- Spec-side description of the accessor's last-stage success result:
the dedicated shared embedding weight `self.word_embeddings.weight`
(accessing it before it exists is the usual attribute failure). -/
def head_embedding_weight (self : MegatronModule) : Except String Tensor :=
  match self.word_embeddings with
  | some p => Except.ok p.weight
  | none => Except.error "AttributeError: word_embeddings"

/-- The observable side effects of one `initialize_word_embeddings` call:
whether the second (last-stage) embedding was allocated, whether the
collective all-reduce over the embedding group was issued, and how many
times the non-fatal warning was printed. -/
structure InitEffects : Type where
  allocated_head_embedding : Bool
  all_reduce_issued : Bool
  warnings : Nat
deriving DecidableEq, Repr

/-- The distributed environment read by `initialize_word_embeddings`:
the calling worker's pipeline position and
`torch.distributed.is_initialized()`. -/
structure DistEnv : Type where
  mpu : PipelineState
  distributed_is_initialized : Bool
deriving DecidableEq, Repr

/-- Embeds `MegatronModule.initialize_word_embeddings(self, init_method_normal)`.
Raise if `share_word_embeddings` is unset; return unchanged if the
pipeline has a single stage; on the last stage (asserting it is not also
the first) allocate `self.word_embeddings` of `padded_vocab_size *
hidden_size` entries, fill it with zeros and tag it `shared`; then, if the
distributed runtime is initialized and the worker is on the first or last
stage, all-reduce `self.word_embeddings_weight().data` in place over the
embedding group (the collective's effect on the local data is the abstract
`all_reduce`); if the distributed runtime is not initialized, print the
warning instead.  The freshly allocated weights produced by the
`init_method` are immediately overwritten by `fill_(0)`, so the
init method is not a parameter of the model. -/
def initialize_word_embeddings (env : DistEnv) (args : Args)
    (all_reduce : Tensor → Tensor) (self : MegatronModule) :
    Except String (MegatronModule × InitEffects) :=
  if !self.share_word_embeddings then
    Except.error "initialize_word_embeddings() was called but share_word_embeddings is false"
  else if args.pipeline_model_parallel_size = 1 then
    Except.ok (self, ⟨false, false, 0⟩)
  else if env.mpu.is_pipeline_last_stage && env.mpu.is_pipeline_first_stage then
    Except.error "AssertionError: not mpu.is_pipeline_first_stage()"
  else
    let self2 : MegatronModule :=
      if env.mpu.is_pipeline_last_stage then
        ⟨self.share_word_embeddings, self.language_model_embedding_weight,
          some ⟨⟨Dtype.fp32, List.replicate (args.padded_vocab_size * args.hidden_size) 0⟩, true⟩⟩
      else self
    let allocated := env.mpu.is_pipeline_last_stage
    if env.distributed_is_initialized then
      if env.mpu.is_pipeline_first_stage || env.mpu.is_pipeline_last_stage then
        match word_embeddings_weight env.mpu self2 with
        | Except.error e => Except.error e
        | Except.ok w =>
            let self3 : MegatronModule :=
              if env.mpu.is_pipeline_first_stage then
                ⟨self2.share_word_embeddings, all_reduce w, self2.word_embeddings⟩
              else
                ⟨self2.share_word_embeddings, self2.language_model_embedding_weight,
                  (self2.word_embeddings).map (fun p => ⟨all_reduce w, p.shared⟩)⟩
            Except.ok (self3, ⟨allocated, true, 0⟩)
      else
        Except.ok (self2, ⟨allocated, false, 0⟩)
    else
      Except.ok (self2, ⟨allocated, false, 1⟩)

mutual
/-- `conversion_helper` preserves the container skeleton. -/
theorem shape_conversion_helper (t : PyTree) (c : Leaf → Leaf) :
    shape (conversion_helper t c) = shape t := by
  cases t with
  | leaf l => rfl
  | list xs => simp [conversion_helper, shape, shapeF_conversion_forest xs c]
  | tuple xs => simp [conversion_helper, shape, shapeF_conversion_forest xs c]
/-- `conversion_forest` preserves the container skeletons. -/
theorem shapeF_conversion_forest (ts : PyForest) (c : Leaf → Leaf) :
    shapeF (conversion_forest ts c) = shapeF ts := by
  cases ts with
  | nil => rfl
  | cons t ts =>
      simp [conversion_forest, shapeF, shape_conversion_helper t c,
        shapeF_conversion_forest ts c]
end

mutual
/-- The leaves of `conversion_helper t c` are the converted leaves of `t`. -/
theorem leaves_conversion_helper (t : PyTree) (c : Leaf → Leaf) :
    leaves (conversion_helper t c) = (leaves t).map c := by
  cases t with
  | leaf l => rfl
  | list xs => simp [conversion_helper, leaves, leavesF_conversion_forest xs c]
  | tuple xs => simp [conversion_helper, leaves, leavesF_conversion_forest xs c]
/-- The leaves of `conversion_forest ts c` are the converted leaves of `ts`. -/
theorem leavesF_conversion_forest (ts : PyForest) (c : Leaf → Leaf) :
    leavesF (conversion_forest ts c) = (leavesF ts).map c := by
  cases ts with
  | nil => rfl
  | cons t ts =>
      simp [conversion_forest, leavesF, leaves_conversion_helper t c,
        leavesF_conversion_forest ts c]
end

/-- Mapping a function over a list, each image is related to its preimage. -/
theorem forall2_map_left {α β : Type} (P : β → α → Prop) (f : α → β) :
    ∀ xs : List α, (∀ x ∈ xs, P (f x) x) → List.Forall₂ P (xs.map f) xs
  | [], _ => List.Forall₂.nil
  | a :: l, h =>
      List.Forall₂.cons (h a (List.mem_cons_self a l))
        (forall2_map_left P f l (fun x hx => h x (List.mem_cons_of_mem a hx)))

/-- The `is_fp32_tensor` observation decides exactly the fp32 dtype. -/
theorem is_fp32_tensor_iff (w : Bool) (t : Tensor) :
    Leaf.is_fp32_tensor (Leaf.tensor w t) = true ↔ t.dtype = Dtype.fp32 := by
  cases htt : t.dtype <;> simp [Leaf.is_fp32_tensor, htt]

/-- C9: for every value and every leaf conversion, `conversion_helper`
preserves the exact container type at every level and the nesting depth and
arity of the input (the container skeletons coincide); in particular an
empty list maps to an empty list and an empty tuple to an empty tuple. -/
theorem c9_conversion_helper_preserves_structure (val : PyTree) (conversion : Leaf → Leaf) :
    shape (conversion_helper val conversion) = shape val
    ∧ conversion_helper (PyTree.list PyForest.nil) conversion = PyTree.list PyForest.nil
    ∧ conversion_helper (PyTree.tuple PyForest.nil) conversion = PyTree.tuple PyForest.nil :=
  ⟨shape_conversion_helper val conversion, rfl, rfl⟩

/-- Closed instance of `c9_conversion_helper_preserves_structure` at a
concrete tree and conversion. -/
theorem c9_conversion_helper_preserves_structure_witness :
    shape (conversion_helper
        (PyTree.list (PyForest.cons (PyTree.leaf (Leaf.pyobj 0))
          (PyForest.cons (PyTree.tuple PyForest.nil) PyForest.nil)))
        Leaf.apply_float)
      = shape (PyTree.list (PyForest.cons (PyTree.leaf (Leaf.pyobj 0))
          (PyForest.cons (PyTree.tuple PyForest.nil) PyForest.nil)))
    ∧ conversion_helper (PyTree.list PyForest.nil) Leaf.apply_float = PyTree.list PyForest.nil
    ∧ conversion_helper (PyTree.tuple PyForest.nil) Leaf.apply_float = PyTree.tuple PyForest.nil :=
  c9_conversion_helper_preserves_structure
    (PyTree.list (PyForest.cons (PyTree.leaf (Leaf.pyobj 0))
      (PyForest.cons (PyTree.tuple PyForest.nil) PyForest.nil)))
    Leaf.apply_float

/-- C2: the entry conversion `fp32_to_float16` preserves the container
skeleton and, leaf for leaf, converts exactly the leaves whose underlying
tensor (after unwrapping `Parameter`/`Variable`) is full precision, and
returns every other leaf — integer, boolean, fp64 or already-reduced
tensor, or non-tensor value — unchanged. -/
theorem c2_entry_converts_exactly_fp32 (float16_convertor : Tensor → Tensor) (t : PyTree) :
    shape (fp32_to_float16 t float16_convertor) = shape t
    ∧ List.Forall₂
        (fun l2 l1 =>
          l2 = if Leaf.is_fp32_tensor l1 then Leaf.apply_convertor float16_convertor l1 else l1)
        (leaves (fp32_to_float16 t float16_convertor)) (leaves t) := by
  constructor
  · rw [fp32_to_float16]
    exact shape_conversion_helper t (half_conversion float16_convertor)
  · rw [fp32_to_float16, leaves_conversion_helper]
    apply forall2_map_left
    intro l _
    cases l with
    | pyobj i => simp [half_conversion, Leaf.is_fp32_tensor]
    | tensor w tt =>
        cases htt : tt.dtype <;>
          simp [half_conversion, Leaf.is_fp32_tensor, Leaf.apply_convertor, htt]

/-- Closed instance of `c2_entry_converts_exactly_fp32` at a concrete
convertor and a concrete tree mixing an fp32 tensor, an int64 tensor and a
non-tensor value. -/
theorem c2_entry_converts_exactly_fp32_witness :
    shape (fp32_to_float16
        (PyTree.tuple (PyForest.cons (PyTree.leaf (Leaf.tensor false ⟨Dtype.fp32, [3]⟩))
          (PyForest.cons (PyTree.leaf (Leaf.tensor false ⟨Dtype.int64, [7]⟩))
            (PyForest.cons (PyTree.leaf (Leaf.pyobj 4)) PyForest.nil))))
        (Tensor.half id))
      = shape (PyTree.tuple (PyForest.cons (PyTree.leaf (Leaf.tensor false ⟨Dtype.fp32, [3]⟩))
          (PyForest.cons (PyTree.leaf (Leaf.tensor false ⟨Dtype.int64, [7]⟩))
            (PyForest.cons (PyTree.leaf (Leaf.pyobj 4)) PyForest.nil))))
    ∧ List.Forall₂
        (fun l2 l1 =>
          l2 = if Leaf.is_fp32_tensor l1 then Leaf.apply_convertor (Tensor.half id) l1 else l1)
        (leaves (fp32_to_float16
          (PyTree.tuple (PyForest.cons (PyTree.leaf (Leaf.tensor false ⟨Dtype.fp32, [3]⟩))
            (PyForest.cons (PyTree.leaf (Leaf.tensor false ⟨Dtype.int64, [7]⟩))
              (PyForest.cons (PyTree.leaf (Leaf.pyobj 4)) PyForest.nil))))
          (Tensor.half id)))
        (leaves (PyTree.tuple (PyForest.cons (PyTree.leaf (Leaf.tensor false ⟨Dtype.fp32, [3]⟩))
          (PyForest.cons (PyTree.leaf (Leaf.tensor false ⟨Dtype.int64, [7]⟩))
            (PyForest.cons (PyTree.leaf (Leaf.pyobj 4)) PyForest.nil))))) :=
  c2_entry_converts_exactly_fp32 (Tensor.half id)
    (PyTree.tuple (PyForest.cons (PyTree.leaf (Leaf.tensor false ⟨Dtype.fp32, [3]⟩))
      (PyForest.cons (PyTree.leaf (Leaf.tensor false ⟨Dtype.int64, [7]⟩))
        (PyForest.cons (PyTree.leaf (Leaf.pyobj 4)) PyForest.nil))))

/-- C3: the exit conversion `float16_to_fp32` preserves the container
skeleton and, leaf for leaf, converts exactly the leaves whose underlying
tensor is reduced precision (fp16 or bf16) to full precision with values
unchanged, and returns every other leaf — in particular a leaf already of
full-precision dtype, or a non-tensor leaf — with value and dtype
unchanged. -/
theorem c3_exit_converts_exactly_reduced (t : PyTree) :
    shape (float16_to_fp32 t) = shape t
    ∧ List.Forall₂
        (fun l2 l1 => l2 = if Leaf.is_reduced_tensor l1 then Leaf.apply_float l1 else l1)
        (leaves (float16_to_fp32 t)) (leaves t) := by
  constructor
  · rw [float16_to_fp32]
    exact shape_conversion_helper t float_conversion
  · rw [float16_to_fp32, leaves_conversion_helper]
    apply forall2_map_left
    intro l _
    cases l with
    | pyobj i => simp [float_conversion, Leaf.is_reduced_tensor]
    | tensor w tt =>
        cases htt : tt.dtype <;>
          simp [float_conversion, Leaf.is_reduced_tensor, Leaf.apply_float, htt]

/-- Closed instance of `c3_exit_converts_exactly_reduced` at a concrete
tree mixing an fp16 tensor, a bf16 tensor and an fp32 tensor. -/
theorem c3_exit_converts_exactly_reduced_witness :
    shape (float16_to_fp32
        (PyTree.list (PyForest.cons (PyTree.leaf (Leaf.tensor false ⟨Dtype.fp16, [2]⟩))
          (PyForest.cons (PyTree.leaf (Leaf.tensor true ⟨Dtype.bf16, [5]⟩))
            (PyForest.cons (PyTree.leaf (Leaf.tensor false ⟨Dtype.fp32, [9]⟩)) PyForest.nil)))))
      = shape (PyTree.list (PyForest.cons (PyTree.leaf (Leaf.tensor false ⟨Dtype.fp16, [2]⟩))
          (PyForest.cons (PyTree.leaf (Leaf.tensor true ⟨Dtype.bf16, [5]⟩))
            (PyForest.cons (PyTree.leaf (Leaf.tensor false ⟨Dtype.fp32, [9]⟩)) PyForest.nil))))
    ∧ List.Forall₂
        (fun l2 l1 => l2 = if Leaf.is_reduced_tensor l1 then Leaf.apply_float l1 else l1)
        (leaves (float16_to_fp32
          (PyTree.list (PyForest.cons (PyTree.leaf (Leaf.tensor false ⟨Dtype.fp16, [2]⟩))
            (PyForest.cons (PyTree.leaf (Leaf.tensor true ⟨Dtype.bf16, [5]⟩))
              (PyForest.cons (PyTree.leaf (Leaf.tensor false ⟨Dtype.fp32, [9]⟩)) PyForest.nil))))))
        (leaves (PyTree.list (PyForest.cons (PyTree.leaf (Leaf.tensor false ⟨Dtype.fp16, [2]⟩))
          (PyForest.cons (PyTree.leaf (Leaf.tensor true ⟨Dtype.bf16, [5]⟩))
            (PyForest.cons (PyTree.leaf (Leaf.tensor false ⟨Dtype.fp32, [9]⟩)) PyForest.nil))))) :=
  c3_exit_converts_exactly_reduced
    (PyTree.list (PyForest.cons (PyTree.leaf (Leaf.tensor false ⟨Dtype.fp16, [2]⟩))
      (PyForest.cons (PyTree.leaf (Leaf.tensor true ⟨Dtype.bf16, [5]⟩))
        (PyForest.cons (PyTree.leaf (Leaf.tensor false ⟨Dtype.fp32, [9]⟩)) PyForest.nil))))

/-- C1: for every nested tree whose leaves are all fp32 tensors, applying
the entry conversion `fp32_to_float16` with the selected convertor (fp16 or
bf16, with its elementwise rounding within `eps` of the identity) and then
the exit conversion `float16_to_fp32` yields a tree with the same container
skeleton whose leaves are fp32 tensors, with the original wrapping, and
elementwise within the reduced-precision round-trip tolerance `eps` of the
originals. -/
theorem c1_roundtrip_tolerance (mode : HalfMode) (round16 roundBf : ℚ → ℚ) (eps : ℚ)
    (h16 : ∀ x : ℚ, |round16 x - x| ≤ eps) (hbf : ∀ x : ℚ, |roundBf x - x| ≤ eps)
    (t : PyTree) (ht : AllLeavesFp32 t) :
    shape (float16_to_fp32 (fp32_to_float16 t (selected_convertor round16 roundBf mode)))
      = shape t
    ∧ List.Forall₂ (LeafApprox eps)
        (leaves (float16_to_fp32 (fp32_to_float16 t (selected_convertor round16 roundBf mode))))
        (leaves t) := by
  constructor
  · rw [float16_to_fp32, fp32_to_float16, shape_conversion_helper, shape_conversion_helper]
  · rw [float16_to_fp32, fp32_to_float16, leaves_conversion_helper, leaves_conversion_helper,
      List.map_map]
    apply forall2_map_left
    intro l hl
    have hfp := ht l hl
    cases l with
    | pyobj i => simp [Leaf.is_fp32_tensor] at hfp
    | tensor w tt =>
        have hdt : tt.dtype = Dtype.fp32 := (is_fp32_tensor_iff w tt).mp hfp
        cases mode with
        | fp16Mode =>
            simp [Function.comp, half_conversion, hdt, selected_convertor, Tensor.half,
              float_conversion, Tensor.float, LeafApprox]
            exact fun x _ => h16 x
        | bf16Mode =>
            simp [Function.comp, half_conversion, hdt, selected_convertor, Tensor.bfloat16,
              float_conversion, Tensor.float, LeafApprox]
            exact fun x _ => hbf x

/-- Closed instance of `c1_roundtrip_tolerance`: identity rounding,
tolerance zero, a concrete all-fp32 tree with a nested empty tuple. -/
theorem c1_roundtrip_tolerance_witness :
    shape (float16_to_fp32 (fp32_to_float16
        (PyTree.list (PyForest.cons (PyTree.leaf (Leaf.tensor false ⟨Dtype.fp32, [3, 5/2]⟩))
          (PyForest.cons (PyTree.tuple (PyForest.cons
            (PyTree.leaf (Leaf.tensor true ⟨Dtype.fp32, [1]⟩)) PyForest.nil)) PyForest.nil)))
        (selected_convertor id id HalfMode.fp16Mode)))
      = shape (PyTree.list (PyForest.cons (PyTree.leaf (Leaf.tensor false ⟨Dtype.fp32, [3, 5/2]⟩))
          (PyForest.cons (PyTree.tuple (PyForest.cons
            (PyTree.leaf (Leaf.tensor true ⟨Dtype.fp32, [1]⟩)) PyForest.nil)) PyForest.nil)))
    ∧ List.Forall₂ (LeafApprox 0)
        (leaves (float16_to_fp32 (fp32_to_float16
          (PyTree.list (PyForest.cons (PyTree.leaf (Leaf.tensor false ⟨Dtype.fp32, [3, 5/2]⟩))
            (PyForest.cons (PyTree.tuple (PyForest.cons
              (PyTree.leaf (Leaf.tensor true ⟨Dtype.fp32, [1]⟩)) PyForest.nil)) PyForest.nil)))
          (selected_convertor id id HalfMode.fp16Mode))))
        (leaves (PyTree.list (PyForest.cons (PyTree.leaf (Leaf.tensor false ⟨Dtype.fp32, [3, 5/2]⟩))
          (PyForest.cons (PyTree.tuple (PyForest.cons
            (PyTree.leaf (Leaf.tensor true ⟨Dtype.fp32, [1]⟩)) PyForest.nil)) PyForest.nil)))) :=
  c1_roundtrip_tolerance HalfMode.fp16Mode id id 0
    (fun x => by simp) (fun x => by simp)
    (PyTree.list (PyForest.cons (PyTree.leaf (Leaf.tensor false ⟨Dtype.fp32, [3, 5/2]⟩))
      (PyForest.cons (PyTree.tuple (PyForest.cons
        (PyTree.leaf (Leaf.tensor true ⟨Dtype.fp32, [1]⟩)) PyForest.nil)) PyForest.nil)))
    (by decide)

/-- C4: the embedding-weight accessor returns the native input-embedding
weight on the first pipeline stage; on the last stage (and not the first)
it returns the dedicated shared embedding weight when
`share_word_embeddings` is set and raises the configuration error when it
is not; on a stage that is neither first nor last it always raises. -/
theorem c4_word_embeddings_weight_contract (mpu : PipelineState) (self : MegatronModule) :
    (mpu.is_pipeline_first_stage = true →
        word_embeddings_weight mpu self = Except.ok self.language_model_embedding_weight)
    ∧ (mpu.is_pipeline_first_stage = false → mpu.is_pipeline_last_stage = true →
        self.share_word_embeddings = true →
        word_embeddings_weight mpu self = head_embedding_weight self)
    ∧ (mpu.is_pipeline_first_stage = false → mpu.is_pipeline_last_stage = true →
        self.share_word_embeddings = false →
        word_embeddings_weight mpu self =
          Except.error "word_embeddings_weight() called for last stage, but share_word_embeddings is false")
    ∧ (mpu.is_pipeline_first_stage = false → mpu.is_pipeline_last_stage = false →
        word_embeddings_weight mpu self =
          Except.error "word_embeddings_weight() should be called for first and last stage only") := by
  refine ⟨fun h1 => ?_, fun h1 h2 h3 => ?_, fun h1 h2 h3 => ?_, fun h1 h2 => ?_⟩ <;>
    simp [word_embeddings_weight, head_embedding_weight, h1]
  · simp [h2, h3]
  · simp [h2, h3]
  · simp [h2]

/-- Closed instance of `c4_word_embeddings_weight_contract`: the
dedicated-shared-weight branch at a concrete last-stage state. -/
theorem c4_word_embeddings_weight_contract_witness :
    word_embeddings_weight ⟨false, true⟩
        ⟨true, ⟨Dtype.fp32, [1]⟩, some ⟨⟨Dtype.fp32, [2]⟩, true⟩⟩
      = head_embedding_weight ⟨true, ⟨Dtype.fp32, [1]⟩, some ⟨⟨Dtype.fp32, [2]⟩, true⟩⟩ :=
  (c4_word_embeddings_weight_contract ⟨false, true⟩
    ⟨true, ⟨Dtype.fp32, [1]⟩, some ⟨⟨Dtype.fp32, [2]⟩, true⟩⟩).2.1 rfl rfl rfl

/-- C5 counterexample: choosing both reduced-precision selections at once
violates the exactly-one condition, yet `Float16Module.__init__` does not
fail: the fp16 branch is taken and construction succeeds. -/
theorem c5_both_flags_counterexample :
    Float16Module.init ⟨true, true, 1, 0, 0⟩ = Except.ok HalfMode.fp16Mode := rfl

/-- C5 (amended): constructing the `Float16Module` fails with the
"should not be here" configuration error exactly when neither of the two
reduced-precision selections is chosen; when fp16 is selected construction
succeeds in fp16 mode regardless of bf16, and when only bf16 is selected it
succeeds in bf16 mode. -/
theorem c5_init_requires_some_selection (args : Args) :
    (args.fp16 = false → args.bf16 = false →
        Float16Module.init args = Except.error "should not be here")
    ∧ (args.fp16 = true → Float16Module.init args = Except.ok HalfMode.fp16Mode)
    ∧ (args.fp16 = false → args.bf16 = true →
        Float16Module.init args = Except.ok HalfMode.bf16Mode) := by
  refine ⟨fun h1 h2 => ?_, fun h1 => ?_, fun h1 h2 => ?_⟩ <;>
    simp [Float16Module.init, h1]
  · simp [h2]
  · simp [h2]

/-- Closed instance of `c5_init_requires_some_selection`: with neither
selection chosen, construction fails with the configuration error. -/
theorem c5_init_requires_some_selection_witness :
    Float16Module.init ⟨false, false, 1, 0, 0⟩ = Except.error "should not be here" :=
  (c5_init_requires_some_selection ⟨false, false, 1, 0, 0⟩).1 rfl rfl

/-- C6: with a single pipeline stage (and sharing requested, the
function's precondition), `initialize_word_embeddings` returns with the
module state unchanged and no effects: no second embedding allocated,
nothing zero-filled or tagged shared, no collective reduction issued and no
warning printed. -/
theorem c6_single_stage_noop (env : DistEnv) (args : Args) (all_reduce : Tensor → Tensor)
    (self : MegatronModule) (hshare : self.share_word_embeddings = true)
    (hsize : args.pipeline_model_parallel_size = 1) :
    initialize_word_embeddings env args all_reduce self = Except.ok (self, ⟨false, false, 0⟩) := by
  simp [initialize_word_embeddings, hshare, hsize]

/-- Closed instance of `c6_single_stage_noop` at a concrete environment
and module state. -/
theorem c6_single_stage_noop_witness :
    initialize_word_embeddings ⟨⟨true, true⟩, true⟩ ⟨false, false, 1, 4, 2⟩ id
        ⟨true, ⟨Dtype.fp32, [1]⟩, none⟩
      = Except.ok (⟨true, ⟨Dtype.fp32, [1]⟩, none⟩, ⟨false, false, 0⟩) :=
  c6_single_stage_noop ⟨⟨true, true⟩, true⟩ ⟨false, false, 1, 4, 2⟩ id
    ⟨true, ⟨Dtype.fp32, [1]⟩, none⟩ rfl rfl

/-- C7: with more than one pipeline stage and the distributed runtime not
initialized, `initialize_word_embeddings` on the last stage completes
without error, prints the non-fatal warning exactly once, allocates the
last-stage embedding as an all-zero fp32 tensor of `padded_vocab_size *
hidden_size` entries tagged shared, and does not issue the collective
all-reduce. -/
theorem c7_distributed_inactive_zeros_and_warning (env : DistEnv) (args : Args)
    (all_reduce : Tensor → Tensor) (self : MegatronModule)
    (hshare : self.share_word_embeddings = true)
    (hsize : args.pipeline_model_parallel_size ≠ 1)
    (hlast : env.mpu.is_pipeline_last_stage = true)
    (hfirst : env.mpu.is_pipeline_first_stage = false)
    (hdist : env.distributed_is_initialized = false) :
    initialize_word_embeddings env args all_reduce self =
      Except.ok
        (⟨self.share_word_embeddings, self.language_model_embedding_weight,
            some ⟨⟨Dtype.fp32, List.replicate (args.padded_vocab_size * args.hidden_size) 0⟩,
              true⟩⟩,
          ⟨true, false, 1⟩) := by
  simp [initialize_word_embeddings, hshare, hsize, hlast, hfirst, hdist]

/-- Closed instance of `c7_distributed_inactive_zeros_and_warning` with
vocabulary size 100 and hidden size 8 over two stages. -/
theorem c7_distributed_inactive_zeros_and_warning_witness :
    initialize_word_embeddings ⟨⟨false, true⟩, false⟩ ⟨true, false, 2, 100, 8⟩ id
        ⟨true, ⟨Dtype.fp32, [1]⟩, none⟩
      = Except.ok
          (⟨true, ⟨Dtype.fp32, [1]⟩,
              some ⟨⟨Dtype.fp32, List.replicate (100 * 8) 0⟩, true⟩⟩,
            ⟨true, false, 1⟩) :=
  c7_distributed_inactive_zeros_and_warning ⟨⟨false, true⟩, false⟩ ⟨true, false, 2, 100, 8⟩ id
    ⟨true, ⟨Dtype.fp32, [1]⟩, none⟩ rfl (by decide) rfl rfl rfl

/-- C8: calling `initialize_word_embeddings` while `share_word_embeddings`
is false raises the configuration error: the error is returned before any
state change or effect, whatever the environment, arguments and module
state. -/
theorem c8_requires_share_word_embeddings (env : DistEnv) (args : Args)
    (all_reduce : Tensor → Tensor) (self : MegatronModule)
    (h : self.share_word_embeddings = false) :
    initialize_word_embeddings env args all_reduce self =
      Except.error "initialize_word_embeddings() was called but share_word_embeddings is false" := by
  simp [initialize_word_embeddings, h]

/-- Closed instance of `c8_requires_share_word_embeddings` at a concrete
environment and a module with sharing disabled. -/
theorem c8_requires_share_word_embeddings_witness :
    initialize_word_embeddings ⟨⟨true, false⟩, true⟩ ⟨true, false, 2, 4, 2⟩ id
        ⟨false, ⟨Dtype.fp32, [1]⟩, none⟩
      = Except.error "initialize_word_embeddings() was called but share_word_embeddings is false" :=
  c8_requires_share_word_embeddings ⟨⟨true, false⟩, true⟩ ⟨true, false, 2, 4, 2⟩ id
    ⟨false, ⟨Dtype.fp32, [1]⟩, none⟩ rfl

/-- C10: keyword arguments are never converted by `Float16Module.forward`
on any pipeline stage: the call behaves exactly as if the keyword arguments
bypassed the wrapper and reached the inner module verbatim (first
conjunct), and on a first (non-last) stage only the positional-argument
tree is subject to the precision conversion while the keyword arguments
are handed to the inner module as given (second conjunct). -/
theorem c10_kwargs_forwarded_unconverted (float16_convertor : Tensor → Tensor)
    (module : PyTree → List (String × PyTree) → PyTree)
    (mpu : PipelineState) (inputs : PyTree) (kwargs : List (String × PyTree)) :
    Float16Module.forward float16_convertor module mpu inputs kwargs
      = Float16Module.forward float16_convertor (fun ins _ => module ins kwargs) mpu inputs []
    ∧ (mpu.is_pipeline_first_stage = true → mpu.is_pipeline_last_stage = false →
        Float16Module.forward float16_convertor module mpu inputs kwargs
          = module (fp32_to_float16 inputs float16_convertor) kwargs) := by
  constructor
  · rfl
  · intro h1 h2
    simp [Float16Module.forward, h1, h2]

/-- Closed instance of `c10_kwargs_forwarded_unconverted`: on a first-stage
worker a module that returns its keyword argument sees it unconverted. -/
theorem c10_kwargs_forwarded_unconverted_witness :
    Float16Module.forward (Tensor.half id)
        (fun _ ks => PyTree.list (PyForest.cons ((ks.headD ("", PyTree.tuple PyForest.nil)).2)
          PyForest.nil))
        ⟨true, false⟩ (PyTree.tuple PyForest.nil)
        [("mask", PyTree.leaf (Leaf.tensor false ⟨Dtype.fp32, [4]⟩))]
      = (fun (_ : PyTree) (ks : List (String × PyTree)) =>
          PyTree.list (PyForest.cons ((ks.headD ("", PyTree.tuple PyForest.nil)).2)
            PyForest.nil))
          (fp32_to_float16 (PyTree.tuple PyForest.nil) (Tensor.half id))
          [("mask", PyTree.leaf (Leaf.tensor false ⟨Dtype.fp32, [4]⟩))] :=
  (c10_kwargs_forwarded_unconverted (Tensor.half id)
    (fun _ ks => PyTree.list (PyForest.cons ((ks.headD ("", PyTree.tuple PyForest.nil)).2)
      PyForest.nil))
    ⟨true, false⟩ (PyTree.tuple PyForest.nil)
    [("mask", PyTree.leaf (Leaf.tensor false ⟨Dtype.fp32, [4]⟩))]).2 rfl rfl

end Megatron
